import Mathlib

/-!
Verification of the parcel-ingestion core of the land-estimator repository.

The embedded functions are shallow translations of the Python sources:
1. src/config/scripts/ingest_scripts.py (the StLouisDataIngester class);
   embedded names carry the suffix Scripts.
2. src/data/injest_shapes.py (the module-level pipeline); embedded names
   carry the suffix Shapes.
3. src/config/scripts/address-index-schema-validator.py (coordinate checks).

Strings are modelled as Lean String over their character lists; Python float
arithmetic is modelled exactly over the rationals, with round-half-to-even
mirroring the builtin round. Python regular expressions that appear in the
sources are translated into explicit character-list matchers with the same
semantics on the anchored patterns used.

A peculiarity of injest_shapes.py is kept faithfully: several of its regex
literals are written with doubled backslashes (for example the pattern
intended as whitespace-plus at line 212 and the PO-box patterns at lines
392-395), so those patterns match literal backslash characters instead of
character classes. The embedded Shapes functions reproduce that behaviour.
-/

/-- Python whitespace test for the ASCII characters produced by this
pipeline (space, tab, newline, carriage return, vertical tab, form feed). -/
def isWsC (c : Char) : Bool :=
  c = ' ' || c = '\t' || c = '\n' || c = '\r' || c = '\x0b' || c = '\x0c'

/-- Character-list form of Python str.strip(): drop whitespace at both ends. -/
def pyStripL (cs : List Char) : List Char :=
  ((cs.dropWhile isWsC).reverse.dropWhile isWsC).reverse

/-- Python str.strip() on strings. -/
def pyStrip (s : String) : String := ⟨pyStripL s.data⟩

/-- Python str.upper() for the ASCII data handled by the pipeline. -/
def pyUpper (s : String) : String := ⟨s.data.map Char.toUpper⟩

/-- Python str.lower() for the ASCII data handled by the pipeline. -/
def pyLower (s : String) : String := ⟨s.data.map Char.toLower⟩

/-- Python str.title() on character lists: a letter that follows a
non-letter is uppercased, a letter that follows a letter is lowercased.
The Boolean argument records whether the previous character was a letter. -/
def pyTitleL : Bool → List Char → List Char
  | _, [] => []
  | prevCased, c :: rest =>
    if c.isAlpha then
      (if prevCased then c.toLower else c.toUpper) :: pyTitleL true rest
    else
      c :: pyTitleL false rest

/-- Python str.title() on strings. -/
def pyTitle (s : String) : String := ⟨pyTitleL false s.data⟩

/-- Python str.rstrip with the two-character set period/comma, as in
word.upper().rstrip(&#39;.,&#39;) of both standardize_address implementations. -/
def rstripPunct (cs : List Char) : List Char :=
  (cs.reverse.dropWhile (fun c => c = '.' || c = ',')).reverse

/-- List-level test that a string begins with the given pattern, used for
the Python str.startswith calls of classify_property. -/
def startsW (s pat : String) : Bool := pat.data.isPrefixOf s.data

/-- Consume exactly n decimal digits from the front of a character list,
returning the digits and the remainder; none if fewer digits are present. -/
def takeDigitsN : Nat → List Char → Option (List Char × List Char)
  | 0, l => some ([], l)
  | _ + 1, [] => none
  | n + 1, c :: t =>
    if c.isDigit then
      match takeDigitsN n t with
      | some (ds, rest) => some (c :: ds, rest)
      | none => none
    else none

/-- Denotation of re.fullmatch of the anchored ZIP pattern of
ingest_scripts.py line 588 and injest_shapes.py line 403: five digits
optionally followed by a hyphen and four digits, and nothing else. -/
def zipFullmatchL (cs : List Char) : Bool :=
  match takeDigitsN 5 cs with
  | none => false
  | some (_, rest) =>
    match rest with
    | [] => true
    | r0 :: r2 =>
      if r0 = '-' then
        match takeDigitsN 4 r2 with
        | some (_, r3) => r3 = []
        | none => false
      else false

/-- is_valid_zip of ingest_scripts.py lines 583-588 (identical in
injest_shapes.py lines 399-403): a missing or empty value is invalid;
otherwise the stripped string must fully match the ZIP pattern.
The none case stands for the Python None / non-string inputs, which the
isinstance guard rejects. -/
def is_valid_zip : Option String → Bool
  | none => false
  | some s => if s = "" then false else zipFullmatchL (pyStrip s).data

/-- Declarative statement of the ZIP shape claimed by the spec: either
exactly five digits, or five digits, a hyphen and four digits. Used to
compare the code against the words of the claim. -/
def zipSpecShape (s : String) : Prop :=
  (s.data.length = 5 ∧ ∀ c ∈ s.data, c.isDigit) ∨
  (s.data.length = 10 ∧ (∀ c ∈ s.data.take 5, c.isDigit) ∧
    s.data.get? 5 = some '-' ∧ ∀ c ∈ s.data.drop 6, c.isDigit)

instance (s : String) : Decidable (zipSpecShape s) := by
  unfold zipSpecShape; infer_instance

/-- classify_property of ingest_scripts.py lines 602-624. The Option
input models the Python None test; any other value arrives as its string
form. -/
def classify_property_scripts : Option String → String → String
  | none, _ => "unknown"
  | some pc, region =>
    let code := pyUpper (pyStrip pc)
    if region = "city" then
      if startsW code "A" then "residential"
      else if startsW code "B" then "residential"
      else if startsW code "C" then "commercial"
      else if startsW code "D" then "industrial"
      else if startsW code "E" then "exempt"
      else if startsW code "F" then "agricultural"
      else "other"
    else if region = "county" then
      if code = "R" || startsW code "RES" then "residential"
      else if code = "C" || startsW code "COM" then "commercial"
      else if code = "I" || startsW code "IND" then "industrial"
      else if code = "A" || startsW code "AGR" then "agricultural"
      else if code = "E" || startsW code "EX" then "exempt"
      else "other"
    else "unknown"

/-- classify_property of injest_shapes.py lines 405-427; it differs from
the Scripts version only by the extra city branch mapping codes starting
with X to exempt. -/
def classify_property_shapes : Option String → String → String
  | none, _ => "unknown"
  | some pc, region =>
    let code := pyUpper (pyStrip pc)
    if region = "city" then
      if startsW code "A" then "residential"
      else if startsW code "B" then "residential"
      else if startsW code "C" then "commercial"
      else if startsW code "D" then "industrial"
      else if startsW code "E" then "exempt"
      else if startsW code "F" then "agricultural"
      else if startsW code "X" then "exempt"
      else "other"
    else if region = "county" then
      if code = "R" || startsW code "RES" then "residential"
      else if code = "C" || startsW code "COM" then "commercial"
      else if code = "I" || startsW code "IND" then "industrial"
      else if code = "A" || startsW code "AGR" then "agricultural"
      else if code = "E" || startsW code "EX" then "exempt"
      else "other"
    else "unknown"

/-- The disjunction of the city prefix tests of
classify_property_scripts, on the normalized code. -/
def cityCodeMatchesScripts (code : String) : Bool :=
  startsW code "A" || startsW code "B" || startsW code "C" ||
  startsW code "D" || startsW code "E" || startsW code "F"

/-- The disjunction of the city prefix tests of classify_property_shapes,
on the normalized code. -/
def cityCodeMatchesShapes (code : String) : Bool :=
  cityCodeMatchesScripts code || startsW code "X"

/-- The disjunction of the county tests of both classify_property
versions, on the normalized code. -/
def countyCodeMatches (code : String) : Bool :=
  code = "R" || startsW code "RES" || code = "C" || startsW code "COM" ||
  code = "I" || startsW code "IND" || code = "A" || startsW code "AGR" ||
  code = "E" || startsW code "EX"

/-- The six-value taxonomy plus the two fallback values that
classify_property can produce. -/
def propertyTaxonomy : List String :=
  ["residential", "commercial", "industrial", "agricultural", "exempt",
   "other", "unknown"]

/-- Python round to the nearest integer with ties going to the even
integer, over exact rationals. -/
def roundHalfEven (x : ℚ) : ℤ :=
  if x - ⌊x⌋ = 1 / 2 then (if ⌊x⌋ % 2 = 0 then ⌊x⌋ else ⌊x⌋ + 1)
  else ⌊x + 1 / 2⌋

/-- Python round(x, 2) over exact rationals. -/
def pyRound2 (x : ℚ) : ℚ := (roundHalfEven (x * 100) : ℚ) / 100

/-- Python round(x, 6) over exact rationals. -/
def pyRound6 (x : ℚ) : ℚ := (roundHalfEven (x * 1000000) : ℚ) / 1000000

/-- calculate_landscapable_area of ingest_scripts.py lines 626-655.
The two numeric arguments are the values produced by safe_to_numeric
(missing or unparseable inputs having already been defaulted to 0). -/
def calculate_landscapable_area (landArea buildingSqft : ℚ)
    (propertyType : String) : ℚ :=
  if landArea ≤ 0 then 0
  else
    let estimatedHardscape :=
      if buildingSqft > 0 then
        buildingSqft * min (15 / 100 + buildingSqft / 20000) (25 / 100) + 300
      else landArea * (5 / 100)
    let estimatedHardscape := min estimatedHardscape (landArea * (6 / 10))
    let landscapable := max 0 (landArea - buildingSqft - estimatedHardscape)
    let landscapable :=
      if propertyType = "commercial" then landscapable * (6 / 10)
      else if propertyType = "industrial" then landscapable * (3 / 10)
      else if propertyType = "residential" && buildingSqft > 0 then
        min (max landscapable (buildingSqft * (2 / 10))) (landArea * (9 / 10))
      else landscapable
    pyRound2 landscapable

/-- calculate_enhanced_landscapable_area of injest_shapes.py lines
430-462; its body is the same formula as the Scripts version. -/
def calculate_enhanced_landscapable_area (landArea buildingSqft : ℚ)
    (propertyType : String) : ℚ :=
  if landArea ≤ 0 then 0
  else
    let estimatedHardscape :=
      if buildingSqft > 0 then
        buildingSqft * min (15 / 100 + buildingSqft / 20000) (25 / 100) + 300
      else landArea * (5 / 100)
    let estimatedHardscape := min estimatedHardscape (landArea * (6 / 10))
    let landscapable := max 0 (landArea - buildingSqft - estimatedHardscape)
    let landscapable :=
      if propertyType = "commercial" then landscapable * (6 / 10)
      else if propertyType = "industrial" then landscapable * (3 / 10)
      else if propertyType = "residential" && buildingSqft > 0 then
        min (max landscapable (buildingSqft * (2 / 10))) (landArea * (9 / 10))
      else landscapable
    pyRound2 landscapable

/-- A character is a regex word character (for the word-boundary tests of
the source patterns): ASCII letters, digits or underscore. -/
def isWordC (c : Char) : Bool := c.isAlphanum || c = '_'

/-- Collapse every whitespace run to a single space, the effect of
re.sub of whitespace-plus with a space (ingest_scripts.py line 536 and
line 581, where the pattern is written with a single backslash and is
live). The Boolean records whether the previous character was whitespace. -/
def collapseWsGo : Bool → List Char → List Char
  | _, [] => []
  | prevWs, c :: t =>
    if isWsC c then
      if prevWs then collapseWsGo true t else ' ' :: collapseWsGo true t
    else c :: collapseWsGo false t

/-- Whitespace-run collapse on a character list. -/
def collapseWsL (cs : List Char) : List Char := collapseWsGo false cs

/-- Period or comma, the character class of the punctuation-collapse
pattern of both standardize_address versions. -/
def isPunctC (c : Char) : Bool := c = '.' || c = ','

/-- Denotation of re.sub of the pattern period-or-comma-plus with
lookahead for another period-or-comma, replaced by a comma
(ingest_scripts.py line 537, injest_shapes.py line 213): every maximal
run of two or more periods/commas becomes a comma followed by the run's
last character; single punctuation characters are unchanged. The state
argument holds the last punctuation character of the current run and
whether the run already has length at least two. -/
def pcGo : List Char → Option (Char × Bool) → List Char
  | [], none => []
  | [], some (p, multi) => if multi then [',', p] else [p]
  | c :: t, none =>
    if isPunctC c then pcGo t (some (c, false)) else c :: pcGo t none
  | c :: t, some (p, multi) =>
    if isPunctC c then pcGo t (some (c, true))
    else (if multi then [',', p] else [p]) ++ c :: pcGo t none

/-- Punctuation-run collapse on a character list. -/
def punctCollapseL (cs : List Char) : List Char := pcGo cs none

/-- Python replace of the two-character sequence space-semicolon with a
comma (first replace call of line 538 in both versions). -/
def semiSub1 : List Char → List Char
  | [] => []
  | ' ' :: ';' :: t => ',' :: semiSub1 t
  | c :: t => c :: semiSub1 t

/-- Python replace of semicolon with comma (second replace call of line
538 in both versions). -/
def semiSub2 (cs : List Char) : List Char :=
  cs.map fun c => if c = ';' then ',' else c

/-- Denotation of re.sub of the live pattern whitespace-star, comma,
whitespace-star replaced by comma-space (ingest_scripts.py line 539).
The Boolean state says whether we are swallowing the trailing whitespace
of a just-replaced match; the list accumulates pending whitespace that
may yet turn out to precede a comma. -/
def csGo : Bool → List Char → List Char → List Char
  | _, pend, [] => pend.reverse
  | sw, pend, c :: t =>
    if isWsC c then
      if sw then csGo true pend t else csGo false (c :: pend) t
    else if c = ',' then ',' :: ' ' :: csGo true [] t
    else pend.reverse ++ c :: csGo false [] t

/-- Comma-space normalization on a character list. -/
def commaSpaceL (cs : List Char) : List Char := csGo false [] cs

/-- Denotation of re.sub of the pattern as actually written at
injest_shapes.py lines 212 and 377 with a doubled backslash: it matches a
literal backslash followed by one or more letters s, replaced by a space.
On backslash-free input it is the identity. Fueled by the input length
(each step consumes at least one character, so the fuel never runs out
when initialized with the length). -/
def sbwGo : Nat → List Char → List Char
  | 0, l => l
  | _ + 1, [] => []
  | f + 1, '\\' :: 's' :: t =>
    ' ' :: sbwGo f ((t.dropWhile (fun c => c = 's')))
  | f + 1, c :: t => c :: sbwGo f t

/-- The doubled-backslash whitespace substitution on a character list. -/
def subBackslashWs (cs : List Char) : List Char := sbwGo cs.length cs

/-- One attempted match of the pattern as written at injest_shapes.py
lines 215 and 378 with doubled backslashes: backslash, any number of
letters s, backslash, comma, backslash, any number of letters s. Returns
the remainder after the match when it succeeds. -/
def tryBCW : List Char → Option (List Char)
  | '\\' :: t =>
    match t.dropWhile (fun c => c = 's') with
    | '\\' :: ',' :: '\\' :: t2 => some (t2.dropWhile (fun c => c = 's'))
    | _ => none
  | _ => none

/-- Fueled scan applying tryBCW at every position, replacing matches with
comma-space; identity on backslash-free input. -/
def sbcGo : Nat → List Char → List Char
  | 0, l => l
  | _ + 1, [] => []
  | f + 1, c :: t =>
    match tryBCW (c :: t) with
    | some rest => ',' :: ' ' :: sbcGo f rest
    | none => c :: sbcGo f t

/-- The doubled-backslash comma substitution on a character list. -/
def subBackslashComma (cs : List Char) : List Char := sbcGo cs.length cs

/-- One attempted match of the pattern written at injest_shapes.py line
379 with doubled backslashes: backslash, letters s, backslash, semicolon,
backslash, letters s. -/
def tryBSemi : List Char → Option (List Char)
  | '\\' :: t =>
    match t.dropWhile (fun c => c = 's') with
    | '\\' :: ';' :: '\\' :: t2 => some (t2.dropWhile (fun c => c = 's'))
    | _ => none
  | _ => none

/-- Fueled scan for the doubled-backslash semicolon substitution of
injest_shapes.py line 379. -/
def sbsGo : Nat → List Char → List Char
  | 0, l => l
  | _ + 1, [] => []
  | f + 1, c :: t =>
    match tryBSemi (c :: t) with
    | some rest => ',' :: ' ' :: sbsGo f rest
    | none => c :: sbsGo f t

/-- The doubled-backslash semicolon substitution on a character list. -/
def subBackslashSemi (cs : List Char) : List Char := sbsGo cs.length cs

/-- Python split on the comma character, keeping empty segments, as used
before stripping and filtering in both standardize_address versions. -/
def splitCommaL : List Char → List (List Char)
  | [] => [[]]
  | c :: t =>
    if c = ',' then [] :: splitCommaL t
    else
      match splitCommaL t with
      | h :: r => (c :: h) :: r
      | [] => [[c]]

/-- The comma-separated parts list of both standardize_address versions:
split on commas, strip each part, keep the non-empty ones. -/
def partsOf (cs : List Char) : List String :=
  ((splitCommaL cs).map fun l => (⟨pyStripL l⟩ : String)).filter fun p => p ≠ ""

/-- Python str.split() with no argument: split on whitespace runs,
dropping empty tokens. The accumulator holds the current token reversed. -/
def swGo : List Char → List Char → List String
  | cur, [] => if cur = [] then [] else [⟨cur.reverse⟩]
  | cur, c :: t =>
    if isWsC c then
      if cur = [] then swGo [] t else (⟨cur.reverse⟩ : String) :: swGo [] t
    else swGo (c :: cur) t

/-- Whitespace tokenization of a character list. -/
def splitWsL (cs : List Char) : List String := swGo [] cs

/-- Value of a Python numeral string (used for the int conversion of the
ordinal digits). -/
def digitsToNat (ds : List Char) : Nat :=
  ds.foldl (fun n c => 10 * n + (c.toNat - '0'.toNat)) 0

/-- Denotation of re.sub of the anchored pattern digits, period, zero on
a whole token (the decimal-artifact cleanup of injest_shapes.py lines
278, 333 and 337): a token consisting of digits followed by the exact
suffix period-zero loses that suffix; anything else is unchanged. -/
def stripDot0 (s : String) : String :=
  let ds := s.data.takeWhile fun c => c.isDigit
  let rest := s.data.dropWhile fun c => c.isDigit
  if ds ≠ [] ∧ rest = ['.', '0'] then ⟨ds⟩ else s

/-- Denotation of re.sub of the pattern digits, period, zero, word
boundary anchored at the start of the joined street string
(injest_shapes.py line 342). -/
def stripDot0Bd (s : String) : String :=
  let ds := s.data.takeWhile fun c => c.isDigit
  let rest := s.data.dropWhile fun c => c.isDigit
  match rest with
  | '.' :: '0' :: r2 =>
    if ds ≠ [] && (match r2 with | [] => true | c :: _ => !isWordC c) then
      ⟨ds ++ r2⟩
    else s
  | _ => s

/-- Denotation of re.sub removing a trailing period-zero
(ingest_scripts.py line 850 and injest_shapes.py line 602, applied to raw
ZIP strings coming from float columns). -/
def stripDotZeroSuffix (s : String) : String :=
  if s.data.reverse.take 2 = ['0', '.'] then
    ⟨s.data.take (s.data.length - 2)⟩
  else s

/-- Uppercase a word and strip trailing periods and commas, the token
normalization word.upper().rstrip of both street tokenizers. -/
def upperRstrip (w : String) : String :=
  ⟨((w.data.map Char.toUpper).reverse.dropWhile isPunctC).reverse⟩

/-- The street-type table of ingest_scripts.py lines 549-554. -/
def streetTypesScripts : List (String × String) :=
  [("STREET", "St."), ("ST", "St."), ("AVENUE", "Ave."), ("AVE", "Ave."),
   ("ROAD", "Rd."), ("RD", "Rd."), ("DRIVE", "Dr."), ("DR", "Dr."),
   ("LANE", "Ln."), ("LN", "Ln."), ("COURT", "Ct."), ("CT", "Ct."),
   ("BOULEVARD", "Blvd."), ("BLVD", "Blvd.")]

/-- The street-type table of injest_shapes.py lines 231-264 (the repeated
dictionary keys of the source carry the same values and are listed once). -/
def streetTypeMapShapes : List (String × String) :=
  [("STREET", "St."), ("ST", "St."), ("STR", "St."), ("STRT", "St."),
   ("AVENUE", "Ave."), ("AVE", "Ave."), ("AV", "Ave."),
   ("ROAD", "Rd."), ("RD", "Rd."),
   ("DRIVE", "Dr."), ("DR", "Dr."),
   ("LANE", "Ln."), ("LN", "Ln."),
   ("COURT", "Ct."), ("CT", "Ct."),
   ("BOULEVARD", "Blvd."), ("BLVD", "Blvd."), ("BL", "Blvd."),
   ("PARKWAY", "Pkwy."), ("PKWY", "Pkwy."), ("PKY", "Pkwy."),
   ("PARKWY", "Pkwy."),
   ("CIRCLE", "Cir."), ("CIR", "Cir."), ("CRCL", "Cir."),
   ("TERRACE", "Ter."), ("TER", "Ter."), ("TERR", "Ter."),
   ("PLACE", "Pl."), ("PL", "Pl."),
   ("SQUARE", "Sq."), ("SQ", "Sq."),
   ("TRAIL", "Trl."), ("TRL", "Trl."), ("TR", "Trl."),
   ("WAY", "Way"),
   ("ALLEY", "Aly."), ("ALY", "Aly."), ("ALLY", "Aly."),
   ("HIGHWAY", "Hwy."), ("HWY", "Hwy."),
   ("EXPRESSWAY", "Expy."), ("EXPW", "Expy."), ("EXPY", "Expy."),
   ("FREEWAY", "Fwy."), ("FWY", "Fwy."),
   ("CAUSEWAY", "Cswy."), ("CSWY", "Cswy."),
   ("POINT", "Pt."), ("PT", "Pt."),
   ("HEIGHTS", "Hts."), ("HTS", "Hts."),
   ("ESTATES", "Est."), ("EST", "Est."),
   ("PARK", "Park"),
   ("PLAZA", "Plz."), ("PLZ", "Plz."),
   ("JUNCTION", "Jct."), ("JCT", "Jct."),
   ("CROSSING", "Xing."), ("XING", "Xing."),
   ("LOOP", "Loop")]

/-- The directional token set of injest_shapes.py lines 266-268. -/
def directionalsList : List String :=
  ["N", "S", "E", "W", "NE", "NW", "SE", "SW",
   "NORTH", "SOUTH", "EAST", "WEST",
   "NORTHEAST", "NORTHWEST", "SOUTHEAST", "SOUTHWEST"]

/-- The long-to-short directional table of injest_shapes.py lines 269-272. -/
def shortDirMap : List (String × String) :=
  [("NORTH", "N"), ("SOUTH", "S"), ("EAST", "E"), ("WEST", "W"),
   ("NORTHEAST", "NE"), ("NORTHWEST", "NW"), ("SOUTHEAST", "SE"),
   ("SOUTHWEST", "SW")]

/-- Street token handling of ingest_scripts.py lines 558-563: a token
whose uppercased, punctuation-stripped form is a street type is replaced
by the canonical abbreviation; otherwise the raw token is title-cased. -/
def processWordScripts (w : String) : String :=
  match streetTypesScripts.lookup (upperRstrip w) with
  | some v => v
  | none => pyTitle w

/-- Fullmatch of the ordinal pattern digits followed by ST, ND, RD or TH
(injest_shapes.py line 282), returning the numeric value and suffix. -/
def ordinalParse (cs : List Char) : Option (Nat × String) :=
  let ds := cs.takeWhile fun c => c.isDigit
  let rest := cs.dropWhile fun c => c.isDigit
  if ds = [] then none
  else if rest = ['S', 'T'] then some (digitsToNat ds, "ST")
  else if rest = ['N', 'D'] then some (digitsToNat ds, "ND")
  else if rest = ['R', 'D'] then some (digitsToNat ds, "RD")
  else if rest = ['T', 'H'] then some (digitsToNat ds, "TH")
  else none

/-- The bare-ordinal cascade of injest_shapes.py lines 311-325. -/
def ordinalBare (num : Nat) : String :=
  if num = 1 then "1st"
  else if num = 2 then "2nd"
  else if num = 3 then "3rd"
  else if num % 10 = 1 ∧ num % 100 ≠ 11 then toString num ++ "st"
  else if num % 10 = 2 ∧ num % 100 ≠ 12 then toString num ++ "nd"
  else if num % 10 = 3 ∧ num % 100 ≠ 13 then toString num ++ "rd"
  else toString num ++ "th"

/-- The ordinal-fused-with-St cascade of injest_shapes.py lines 294-309. -/
def ordinalSt (num : Nat) : String :=
  if num = 1 then "1st St."
  else if num = 2 then "2nd St."
  else if num = 3 then "3rd St."
  else if num % 10 = 1 ∧ num % 100 ≠ 11 then toString num ++ "st St."
  else if num % 10 = 2 ∧ num % 100 ≠ 12 then toString num ++ "nd St."
  else if num % 10 = 3 ∧ num % 100 ≠ 13 then toString num ++ "rd St."
  else toString num ++ "th St."

/-- The standard English ordinal suffix rule, stated independently of the
source's cascade: the teens eleven, twelve, thirteen take th; otherwise
the last digit selects st, nd, rd or th. Used to compare the code's
ordinal rendering against the claim. -/
def englishOrdinalSuffix (n : Nat) : String :=
  if n % 100 = 11 ∨ n % 100 = 12 ∨ n % 100 = 13 then "th"
  else if n % 10 = 1 then "st"
  else if n % 10 = 2 then "nd"
  else if n % 10 = 3 then "rd"
  else "th"

/-- Nonempty all-digit list. -/
def digitsNE (l : List Char) : Bool := l ≠ [] && l.all fun c => c.isDigit

/-- Uppercase ASCII letter, the character class written as A-Z. -/
def isUpperAZ (c : Char) : Bool := 'A' ≤ c && c ≤ 'Z'

/-- Fullmatch disjunction of the house/unit-number patterns of
injest_shapes.py line 331: digits with optional trailing capital, optional
leading capital with digits, digit range with hyphen, digit fraction with
slash. -/
def numTokenMatch (cs : List Char) : Bool :=
  (let ds := cs.takeWhile fun c => c.isDigit
   let rest := cs.dropWhile fun c => c.isDigit
   ds ≠ [] && (rest = [] || (match rest with
     | [c] => isUpperAZ c
     | _ => false))) ||
  (match cs with
   | c :: t => if isUpperAZ c then digitsNE t else digitsNE cs
   | [] => false) ||
  (let ds := cs.takeWhile fun c => c.isDigit
   let rest := cs.dropWhile fun c => c.isDigit
   ds ≠ [] && (match rest with
     | '-' :: r2 => digitsNE r2
     | _ => false)) ||
  (let ds := cs.takeWhile fun c => c.isDigit
   let rest := cs.dropWhile fun c => c.isDigit
   ds ≠ [] && (match rest with
     | '/' :: r2 => digitsNE r2
     | _ => false))

/-- Street token handling of injest_shapes.py lines 274-338 for one token
given whether the next raw token is a street-type word: decimal cleanup,
then the ordinal branch, directionals, street types, number preservation,
and title-casing in the order of the source. -/
def processWordShapes (wordRaw : String) (nextIsType : Bool) : String :=
  let wordClean := stripDot0 wordRaw
  let word := upperRstrip wordClean
  match ordinalParse word.data with
  | some (num, suffix) =>
    if suffix = "ST" ∧ ¬nextIsType then ordinalSt num else ordinalBare num
  | none =>
    if directionalsList.contains word then (shortDirMap.lookup word).getD word
    else
      match streetTypeMapShapes.lookup word with
      | some v => v
      | none =>
        if numTokenMatch word.data then stripDot0 wordRaw
        else pyTitle (stripDot0 wordRaw)

/-- The next-token street-type test of injest_shapes.py lines 291-292. -/
def nextIsStreetType : List String → Bool
  | [] => false
  | nw :: _ => (streetTypeMapShapes.lookup (upperRstrip nw)).isSome

/-- The street token loop of injest_shapes.py lines 274-338. -/
def processStreetShapes : List String → List String
  | [] => []
  | w :: rest => processWordShapes w (nextIsStreetType rest) :: processStreetShapes rest

/-- Join with single spaces, the space join applied to standardized
street words in both versions. -/
def joinSpace : List String → String
  | [] => ""
  | [x] => x
  | x :: r => x ++ " " ++ joinSpace r

/-- All characters whitespace (used for the end anchor of the state/ZIP
regex). -/
def allWsL (l : List Char) : Bool := l.all isWsC

/-- Tail parse of the state/ZIP regex of both versions (ingest_scripts.py
line 572, injest_shapes.py line 357): a five-digit group optionally
extended by hyphen and four digits, matched greedily, after which only
whitespace may remain (the end anchor). Returns the ZIP characters. -/
def zipTailParse (l : List Char) : Option (List Char) :=
  match takeDigitsN 5 l with
  | none => none
  | some (d5, r) =>
    match r with
    | '-' :: r2 =>
      (match takeDigitsN 4 r2 with
       | some (d4, r3) =>
         if allWsL r3 then some (d5 ++ '-' :: d4)
         else if allWsL r then some d5 else none
       | none => if allWsL r then some d5 else none)
    | _ => if allWsL r then some d5 else none

/-- One attempted match of the full state/ZIP regex at a given position:
word boundary, two ASCII letters, at least one whitespace character, then
the ZIP tail. Returns the uppercased state and the ZIP string. -/
def tryStateZipAt (prev : Option Char) (l : List Char) :
    Option (String × String) :=
  if (match prev with | none => true | some p => !isWordC p) then
    match l with
    | a :: b :: rest =>
      if a.isAlpha && b.isAlpha then
        if rest.takeWhile isWsC ≠ [] then
          match zipTailParse (rest.dropWhile isWsC) with
          | some zipCs => some (pyUpper ⟨[a, b]⟩, ⟨zipCs⟩)
          | none => none
        else none
      else none
    | _ => none
  else none

/-- Leftmost search of the state/ZIP regex over a character list,
mirroring re.search position scanning. -/
def stateZipSearchGo (prev : Option Char) : List Char → Option (String × String)
  | [] => none
  | c :: t =>
    match tryStateZipAt prev (c :: t) with
    | some r => some r
    | none => stateZipSearchGo (some c) t

/-- re.search of the state/ZIP pattern on a string. -/
def stateZipSearch (s : String) : Option (String × String) :=
  stateZipSearchGo none s.data

/-- The output template street, comma, city, comma, state, space, ZIP of
both standardize_address versions. -/
def renderAddr (street city state zip : String) : String :=
  street ++ ", " ++ city ++ ", " ++ state ++ " " ++ zip

/-- The part-assembly stage of standardize_address in ingest_scripts.py
lines 545-581: street from the first part, city from the second (or the
default), state and ZIP parsed from the third (or the defaults), then
tokenization, city normalization and rendering with the final live
whitespace collapse and strip. -/
def assembleScripts (parts : List String)
    (defaultCity defaultState defaultZip : String) : String :=
  let streetPart := parts.headD ""
  let cityPart := (parts.get? 1).getD defaultCity
  let stateZipPart := (parts.get? 2).getD (defaultState ++ " " ++ defaultZip)
  let streetStd := joinSpace ((splitWsL streetPart.data).map processWordScripts)
  let cityStd :=
    if pyUpper cityPart = "ST LOUIS" ∨ pyUpper cityPart = "SAINT LOUIS"
    then "St. Louis" else pyTitle cityPart
  let stZp :=
    match stateZipSearch stateZipPart with
    | some r => r
    | none => (defaultState, defaultZip)
  ⟨pyStripL (collapseWsL (renderAddr streetStd cityStd stZp.1 stZp.2).data)⟩

/-- standardize_address of ingest_scripts.py lines 527-581. The Option
input models the falsy / non-string guard; defaults are passed
explicitly by callers (the Python signature defaults are Unknown City,
MO, 63102). -/
def standardize_address_scripts (full : Option String)
    (defaultCity defaultState defaultZip : String) : String :=
  match full with
  | none => ""
  | some fs =>
    if fs = "" then ""
    else
      let a0 := pyStripL fs.data
      if a0 = [] then ""
      else
        let a4 := commaSpaceL (semiSub2 (semiSub1 (punctCollapseL (collapseWsL a0))))
        let parts := partsOf a4
        if parts = [] then ""
        else assembleScripts parts defaultCity defaultState defaultZip

/-- Variant of standardize_address_scripts following the claim's wording
that only the first three comma-separated segments are used: the parts
list is explicitly truncated to three elements before assembly. -/
def standardize_address_scripts_spec3 (full : Option String)
    (defaultCity defaultState defaultZip : String) : String :=
  match full with
  | none => ""
  | some fs =>
    if fs = "" then ""
    else
      let a0 := pyStripL fs.data
      if a0 = [] then ""
      else
        let a4 := commaSpaceL (semiSub2 (semiSub1 (punctCollapseL (collapseWsL a0))))
        let parts := (partsOf a4).take 3
        if parts = [] then ""
        else assembleScripts parts defaultCity defaultState defaultZip

/-- The part-assembly stage of standardize_address in injest_shapes.py
lines 222-385: street tokenization with the ordinal logic, the four-way
city normalization, state/ZIP parsing with the ZIP validation fallback of
lines 366-372, rendering, and the final cleanup of lines 377-379, whose
substitutions are kept with their doubled-backslash patterns (only the
str.strip of line 377 is live). -/
def assembleShapes (parts : List String)
    (defaultCity defaultState defaultZip : String) : String :=
  let streetPart := parts.headD ""
  let cityPart := (parts.get? 1).getD defaultCity
  let stateZipPart := (parts.get? 2).getD (defaultState ++ " " ++ defaultZip)
  let streetStd := stripDot0Bd (joinSpace (processStreetShapes (splitWsL streetPart.data)))
  let cityStd :=
    if pyUpper cityPart = "ST LOUIS" ∨ pyUpper cityPart = "SAINT LOUIS"
    then "St. Louis"
    else if pyUpper cityPart = "ST LOUIS COUNTY" ∨
            pyUpper cityPart = "SAINT LOUIS COUNTY"
    then "St. Louis County"
    else if pyUpper cityPart = "UNINCORPORATED"
    then "St. Louis County (Unincorporated)"
    else pyTitle cityPart
  let stZp :=
    match stateZipSearch stateZipPart with
    | some r => r
    | none => (defaultState, defaultZip)
  let zipStd := if is_valid_zip (some stZp.2) then stZp.2 else defaultZip
  let fin := renderAddr streetStd cityStd stZp.1 zipStd
  ⟨subBackslashSemi (subBackslashComma (pyStripL (subBackslashWs fin.data)))⟩

/-- standardize_address of injest_shapes.py lines 197-385 (identical in
src/config/scripts/injest_shapes.py lines 257-445). See assembleShapes
for the part-assembly stage. -/
def standardize_address_shapes (full : Option String)
    (defaultCity defaultState defaultZip : String) : String :=
  match full with
  | none => ""
  | some fs =>
    if fs = "" then ""
    else
      let a0 := pyStripL fs.data
      if a0 = [] then ""
      else
        let a4 := subBackslashComma (semiSub2 (semiSub1 (punctCollapseL (subBackslashWs a0))))
        let parts := partsOf a4
        if parts = [] then ""
        else assembleShapes parts defaultCity defaultState defaultZip

/-- Variant of standardize_address_shapes following the claim's wording
that only the first three comma-separated segments are used. -/
def standardize_address_shapes_spec3 (full : Option String)
    (defaultCity defaultState defaultZip : String) : String :=
  match full with
  | none => ""
  | some fs =>
    if fs = "" then ""
    else
      let a0 := pyStripL fs.data
      if a0 = [] then ""
      else
        let a4 := subBackslashComma (semiSub2 (semiSub1 (punctCollapseL (subBackslashWs a0))))
        let parts := (partsOf a4).take 3
        if parts = [] then ""
        else assembleShapes parts defaultCity defaultState defaultZip

/-- Regex token alphabet covering the PO-box patterns of both sources:
literal characters, the optional escaped period of the live patterns, the
optional wildcard that the broken patterns contain (a dot-question after
a doubled backslash), whitespace-plus, digit-plus, one-or-more of a fixed
literal (the broken s-plus and d-plus), and the word boundary. -/
inductive RTok where
  | lit (c : Char)
  | optLit (c : Char)
  | optAny
  | wsPlus
  | digitPlus
  | litPlus (c : Char)
  | wordB
deriving DecidableEq

/-- Word-boundary test between the previous character and the head of the
remaining input. -/
def boundaryOk (prev : Option Char) (l : List Char) : Bool :=
  let pw := match prev with | some p => isWordC p | none => false
  let nw := match l with | x :: _ => isWordC x | [] => false
  pw != nw

/-- Backtracking matcher: does the token list match a prefix of the input
(given the previous character for boundary tests)? This is the standard
denotation of the regex fragments used by the PO-box patterns. Each step
consumes a token or an input character, so the recursion is fueled by
their combined length; the fuel supplied by reSearch never runs out. -/
def matchToks : Nat → List RTok → Option Char → List Char → Bool
  | 0, _, _, _ => false
  | _ + 1, [], _, _ => true
  | f + 1, RTok.lit c :: ts, _, l =>
    match l with
    | x :: r => x = c && matchToks f ts (some x) r
    | [] => false
  | f + 1, RTok.optLit c :: ts, prev, l =>
    (match l with
     | x :: r => x = c && matchToks f ts (some x) r
     | [] => false) || matchToks f ts prev l
  | f + 1, RTok.optAny :: ts, prev, l =>
    (match l with
     | x :: r => x ≠ '\n' && matchToks f ts (some x) r
     | [] => false) || matchToks f ts prev l
  | f + 1, RTok.wsPlus :: ts, _, l =>
    match l with
    | x :: r =>
      isWsC x && (matchToks f (RTok.wsPlus :: ts) (some x) r || matchToks f ts (some x) r)
    | [] => false
  | f + 1, RTok.digitPlus :: ts, _, l =>
    match l with
    | x :: r =>
      x.isDigit && (matchToks f (RTok.digitPlus :: ts) (some x) r || matchToks f ts (some x) r)
    | [] => false
  | f + 1, RTok.litPlus c :: ts, _, l =>
    match l with
    | x :: r =>
      x = c && (matchToks f (RTok.litPlus c :: ts) (some x) r || matchToks f ts (some x) r)
    | [] => false
  | f + 1, RTok.wordB :: ts, prev, l => boundaryOk prev l && matchToks f ts prev l

/-- re.search: try the match at every position, left to right. -/
def reSearchGo (toks : List RTok) : Option Char → List Char → Bool
  | prev, [] => matchToks (toks.length + 1) toks prev []
  | prev, c :: t =>
    matchToks (toks.length + (c :: t).length + 1) toks prev (c :: t) ||
    reSearchGo toks (some c) t

/-- re.search of a token pattern on a string. -/
def reSearch (toks : List RTok) (s : String) : Bool :=
  reSearchGo toks none s.data

/-- The first PO-box pattern of ingest_scripts.py line 595, written there
with single backslashes and hence live: word boundary, P, optional
period, O, optional period, whitespace, BOX, word boundary. -/
def poPat1Scripts : List RTok :=
  [RTok.wordB, RTok.lit 'P', RTok.optLit '.', RTok.lit 'O', RTok.optLit '.',
   RTok.wsPlus, RTok.lit 'B', RTok.lit 'O', RTok.lit 'X', RTok.wordB]

/-- The second PO-box pattern of ingest_scripts.py line 596. -/
def poPat2Scripts : List RTok :=
  [RTok.wordB, RTok.lit 'P', RTok.lit 'O', RTok.wsPlus,
   RTok.lit 'B', RTok.lit 'O', RTok.lit 'X', RTok.wordB]

/-- The third PO-box pattern of ingest_scripts.py line 597. -/
def poPat3Scripts : List RTok :=
  [RTok.wordB, RTok.lit 'B', RTok.lit 'O', RTok.lit 'X',
   RTok.wsPlus, RTok.digitPlus]

/-- The fourth PO-box pattern of ingest_scripts.py line 598. -/
def poPat4Scripts : List RTok :=
  [RTok.wordB, RTok.lit 'P', RTok.lit 'M', RTok.lit 'B',
   RTok.wsPlus, RTok.digitPlus]

/-- is_po_box of ingest_scripts.py lines 590-600: any of the four
patterns found in the uppercased address. -/
def is_po_box_scripts : Option String → Bool
  | none => false
  | some a =>
    let u := pyUpper a
    reSearch poPat1Scripts u || reSearch poPat2Scripts u ||
    reSearch poPat3Scripts u || reSearch poPat4Scripts u

/-- The first PO-box pattern as actually written at injest_shapes.py line
392 with doubled backslashes: its regex tokens are literal backslash,
literal lowercase b, P, literal backslash, optional wildcard, O, literal
backslash, optional wildcard, literal backslash, one or more lowercase s,
B, O, X, literal backslash, literal lowercase b. -/
def poPat1Shapes : List RTok :=
  [RTok.lit '\\', RTok.lit 'b', RTok.lit 'P', RTok.lit '\\', RTok.optAny,
   RTok.lit 'O', RTok.lit '\\', RTok.optAny, RTok.lit '\\', RTok.litPlus 's',
   RTok.lit 'B', RTok.lit 'O', RTok.lit 'X', RTok.lit '\\', RTok.lit 'b']

/-- The second PO-box pattern of injest_shapes.py line 393 (doubled
backslashes). -/
def poPat2Shapes : List RTok :=
  [RTok.lit '\\', RTok.lit 'b', RTok.lit 'P', RTok.lit 'O', RTok.lit '\\',
   RTok.litPlus 's', RTok.lit 'B', RTok.lit 'O', RTok.lit 'X',
   RTok.lit '\\', RTok.lit 'b']

/-- The third PO-box pattern of injest_shapes.py line 394 (doubled
backslashes). -/
def poPat3Shapes : List RTok :=
  [RTok.lit '\\', RTok.lit 'b', RTok.lit 'B', RTok.lit 'O', RTok.lit 'X',
   RTok.lit '\\', RTok.litPlus 's', RTok.lit '\\', RTok.litPlus 'd']

/-- The fourth PO-box pattern of injest_shapes.py line 395 (doubled
backslashes). -/
def poPat4Shapes : List RTok :=
  [RTok.lit '\\', RTok.lit 'b', RTok.lit 'P', RTok.lit 'M', RTok.lit 'B',
   RTok.lit '\\', RTok.litPlus 's', RTok.lit '\\', RTok.litPlus 'd']

/-- is_po_box of injest_shapes.py lines 388-397, with its
doubled-backslash patterns kept faithfully: each pattern demands literal
backslashes and lowercase letters inside the uppercased address. -/
def is_po_box_shapes : Option String → Bool
  | none => false
  | some a =>
    let u := pyUpper a
    reSearch poPat1Shapes u || reSearch poPat2Shapes u ||
    reSearch poPat3Shapes u || reSearch poPat4Shapes u

/-- The row fields read by the affluence scoring functions, after the
get_field_value / safe_to_numeric extraction (numeric fields default to 0,
string fields to the empty string). -/
structure AffluenceRow where
  totalAssessment : ℚ
  landAssessment : ℚ
  improvementAssessment : ℚ
  buildingSqft : ℚ
  buildingYear : ℚ
  landArea : ℚ
  ownerTenure : String
  ownerState : String
deriving DecidableEq

/-- calculate_affluence_score of ingest_scripts.py lines 657-706:
additive tiers, then round(score, 2) clamped into the interval by
max(0, min(5, rounded)). -/
def calculate_affluence_score (row : AffluenceRow) (region : String) : ℚ :=
  let score : ℚ := 0
  let score := score +
    (if row.totalAssessment > 750000 then 3
     else if row.totalAssessment > 500000 then 5 / 2
     else if row.totalAssessment > 300000 then 2
     else if row.totalAssessment > 150000 then 1
     else if row.totalAssessment > 75000 then 1 / 2
     else 0)
  let score := score +
    (if row.buildingSqft > 0 then
      (if row.buildingSqft > 4000 then 3 / 2
       else if row.buildingSqft > 2500 then 1
       else if row.buildingSqft > 1500 then 1 / 2
       else 0) +
      (if row.buildingYear > 2010 then 1 / 2
       else if row.buildingYear > 1990 then 1 / 4
       else 0)
     else 0)
  let score := score +
    (if row.landArea > 43560 then 3 / 2
     else if row.landArea > 21780 then 1
     else if row.landArea > 10000 then 1 / 2
     else 0)
  let score := score +
    (if row.landAssessment > 0 ∧ row.improvementAssessment > 0 then
      (if row.improvementAssessment / row.landAssessment > 5 then 1
       else if row.improvementAssessment / row.landAssessment > 2 then 1 / 2
       else if row.improvementAssessment / row.landAssessment < 1 / 2 ∧
               row.buildingSqft > 0 then -(1 / 2)
       else 0)
     else 0)
  let score := score +
    (if region = "county" then
      (if pyUpper row.ownerTenure = "OWNER" then 1 / 4 else 0) +
      (if pyUpper row.ownerState ≠ "" ∧ pyUpper row.ownerState ≠ "MO" ∧
          (pyUpper row.ownerState).data.length = 2 then -(1 / 4) else 0)
     else 0)
  max 0 (min 5 (pyRound2 score))

/-- calculate_enhanced_affluence_score of injest_shapes.py lines 465-517:
the same tiers, but the score is clamped into the interval first and
rounded afterwards. -/
def calculate_enhanced_affluence_score (row : AffluenceRow)
    (region : String) : ℚ :=
  let score : ℚ := 0
  let score := score +
    (if row.totalAssessment > 750000 then 3
     else if row.totalAssessment > 500000 then 5 / 2
     else if row.totalAssessment > 300000 then 2
     else if row.totalAssessment > 150000 then 1
     else if row.totalAssessment > 75000 then 1 / 2
     else 0)
  let score := score +
    (if row.buildingSqft > 0 then
      (if row.buildingSqft > 4000 then 3 / 2
       else if row.buildingSqft > 2500 then 1
       else if row.buildingSqft > 1500 then 1 / 2
       else 0) +
      (if row.buildingYear > 2010 then 1 / 2
       else if row.buildingYear > 1990 then 1 / 4
       else 0)
     else 0)
  let score := score +
    (if row.landArea > 43560 then 3 / 2
     else if row.landArea > 21780 then 1
     else if row.landArea > 10000 then 1 / 2
     else 0)
  let score := score +
    (if row.landAssessment > 0 ∧ row.improvementAssessment > 0 then
      (if row.improvementAssessment / row.landAssessment > 5 then 1
       else if row.improvementAssessment / row.landAssessment > 2 then 1 / 2
       else if row.improvementAssessment / row.landAssessment < 1 / 2 ∧
               row.buildingSqft > 0 then -(1 / 2)
       else 0)
     else 0)
  let score := score +
    (if region = "county" then
      (if pyUpper row.ownerTenure = "OWNER" then 1 / 4 else 0) +
      (if pyUpper row.ownerState ≠ "" ∧ pyUpper row.ownerState ≠ "MO" ∧
          (pyUpper row.ownerState).data.length = 2 then -(1 / 4) else 0)
     else 0)
  pyRound2 (max 0 (min 5 score))

/-- The fields of the emitted record that the claims are about, from the
dictionary built at ingest_scripts.py lines 901-925. -/
structure ParcelRecordOut where
  id : String
  full_address : String
  region : String
  latitude : ℚ
  longitude : ℚ
  landarea_sqft : ℚ
  building_sqft : ℚ
  estimated_landscapable_area_sqft : ℚ
  property_type : String
  affluence_score : ℚ
deriving DecidableEq

/-- One raw city row as consumed by the per-row loop of
process_city_data (ingest_scripts.py lines 835-925): the string columns
already passed through str conversion, the numeric columns through
safe_to_numeric, and the centroid is taken from the row geometry, which
line 804 reprojected to EPSG 26915 (UTM 15N). The pair holds the
centroid x and y coordinates in that projected system. -/
structure CityRow where
  handle : String
  siteaddr : String
  zipRaw : String
  centroid : Option (ℚ × ℚ)
  landarea : ℚ
  bdg1area : ℚ
  asmtTotal : ℚ
  asmtLand : ℚ
  asmtImprov : ℚ
  bdg1year : ℚ
  propClass : Option String
deriving DecidableEq

/-- The counters of address_stats touched by one city row
(ingest_scripts.py lines 853-875). -/
structure CityStatsDelta where
  missing_city_components : Nat
  invalid_zip : Nat
  standardization_failure : Nat
  po_box : Nat
  valid_addresses : Nat
deriving DecidableEq

/-- All-zero counter delta. -/
def zeroStats : CityStatsDelta := ⟨0, 0, 0, 0, 0⟩

/-- The per-row body of process_city_data, ingest_scripts.py lines
839-925: the emitted record (none when the row is skipped) and the
counter increments. Follows the source control flow: blank parcel id is
skipped silently; a missing street counts missing_city_components and
skips; an invalid ZIP counts invalid_zip and substitutes 63102; a failed
standardization counts standardization_failure and skips; a PO-box hit
counts po_box and skips; otherwise the record is assembled with latitude
and longitude rounded from the row centroid (lines 899-907). -/
def process_city_row (row : CityRow) : Option ParcelRecordOut × CityStatsDelta :=
  let parcelId := pyStrip row.handle
  if parcelId = "" then (none, zeroStats)
  else
    let fullStreet := pyStrip row.siteaddr
    let zipRaw0 := stripDotZeroSuffix (pyStrip row.zipRaw)
    if fullStreet = "" ∨ pyLower fullStreet = "nan" ∨ pyLower fullStreet = "none" ∨
       pyLower fullStreet = "null" then
      (none, { zeroStats with missing_city_components := 1 })
    else
      let zipOk := is_valid_zip (some zipRaw0)
      let zipDelta := if zipOk then 0 else 1
      let zipCode := if zipOk then zipRaw0 else "63102"
      let rawFull := fullStreet ++ ", St. Louis, MO " ++ zipCode
      let std := standardize_address_scripts (some rawFull) "St. Louis" "MO" "63102"
      if std = "" then
        (none, { zeroStats with invalid_zip := zipDelta, standardization_failure := 1 })
      else if is_po_box_scripts (some std) then
        (none, { zeroStats with invalid_zip := zipDelta, po_box := 1 })
      else
        let landArea := row.landarea
        let buildingSqft :=
          if row.bdg1area = 0 ∧ row.asmtImprov > 0 ∧ landArea > 0 then
            min (row.asmtImprov / 100) (landArea * (7 / 10))
          else row.bdg1area
        let propertyType := classify_property_scripts row.propClass "city"
        let est := calculate_landscapable_area landArea buildingSqft propertyType
        let aff := calculate_affluence_score
          ⟨row.asmtTotal, row.asmtLand, row.asmtImprov, buildingSqft,
           row.bdg1year, landArea, "", ""⟩ "city"
        let lat := match row.centroid with | some c => pyRound6 c.2 | none => 0
        let lon := match row.centroid with | some c => pyRound6 c.1 | none => 0
        (some
          { id := parcelId, full_address := std, region := "St. Louis City",
            latitude := lat, longitude := lon, landarea_sqft := landArea,
            building_sqft := pyRound2 buildingSqft,
            estimated_landscapable_area_sqft := est,
            property_type := propertyType, affluence_score := aff },
         { zeroStats with invalid_zip := zipDelta, valid_addresses := 1 })

/-- The address portion of the per-row body of process_county,
injest_shapes.py lines 728-778: returns none when the row is dropped for
a missing street; otherwise the standardized full address together with
the invalid_zip counter increment. Lines 755-761 are kept faithfully:
in both the valid and the invalid branch the raw ZIP is what flows into
the address (the invalid branch only counts and logs). -/
def county_row_address (propAdd muni propZip : String) : Option (String × Nat) :=
  let rawAddress := pyStrip propAdd
  let rawMunicipality := pyTitle (pyStrip muni)
  let rawZip := pyStrip propZip
  if rawAddress = "" ∨ pyLower rawAddress = "nan" ∨ pyLower rawAddress = "none" ∨
     pyLower rawAddress = "null" then none
  else
    let cityToUse0 := if rawMunicipality = "" then "St. Louis County" else rawMunicipality
    let cityToUse := if pyUpper cityToUse0 = "UNINCORPORATED" then
        "St. Louis County (Unincorporated)" else cityToUse0
    let invalidZipDelta := if is_valid_zip (some rawZip) then 0 else 1
    let zipToUse := rawZip
    let full := rawAddress ++ ", " ++ cityToUse ++ ", MO " ++ zipToUse
    some (standardize_address_shapes (some full) cityToUse "MO" zipToUse,
          invalidZipDelta)

/-- Result categories of the coordinate checks of
address-index-schema-validator.py lines 58-70. -/
inductive CoordCheck where
  | ok
  | projected
  | outOfRange
deriving DecidableEq

/-- The latitude check of address-index-schema-validator.py lines 58-63:
out-of-range latitudes above 1000 are reported as projected coordinates
rather than generically out of range. -/
def validator_latitude_check (lat : ℚ) : CoordCheck :=
  if -90 ≤ lat ∧ lat ≤ 90 then CoordCheck.ok
  else if lat > 1000 then CoordCheck.projected
  else CoordCheck.outOfRange

/-- The longitude check of address-index-schema-validator.py lines
65-70, which uses the absolute value for the projected test. -/
def validator_longitude_check (lon : ℚ) : CoordCheck :=
  if -180 ≤ lon ∧ lon ≤ 180 then CoordCheck.ok
  else if |lon| > 1000 then CoordCheck.projected
  else CoordCheck.outOfRange

/-- The WGS84 display ranges that the spec asserts for every emitted
coordinate pair. -/
def wgs84LatLonRange (lat lon : ℚ) : Prop :=
  -90 ≤ lat ∧ lat ≤ 90 ∧ -180 ≤ lon ∧ lon ≤ 180

instance (lat lon : ℚ) : Decidable (wgs84LatLonRange lat lon) := by
  unfold wgs84LatLonRange; infer_instance

/-- The city parcel row used in the coordinate claims: its centroid is
the first still-projected coordinate pair recorded in the repository's
own test-coordinate-transform.py (lines 17-21), which that script labels
as coming from the schema validation of the generated index. -/
def utmCityRow : CityRow :=
  { handle := "10010000010", siteaddr := "123 MAIN ST", zipRaw := "63101",
    centroid := some (744902380139 / 1000000, 4278231181849 / 1000000),
    landarea := 5000, bdg1area := 1200, asmtTotal := 150000,
    asmtLand := 50000, asmtImprov := 100000, bdg1year := 1950,
    propClass := some "A1" }

/-- A city parcel row whose street field is a PO box. -/
def poBoxCityRow : CityRow :=
  { handle := "20020000020", siteaddr := "P.O. BOX 1234", zipRaw := "63102",
    centroid := some (744902380139 / 1000000, 4278231181849 / 1000000),
    landarea := 5000, bdg1area := 1200, asmtTotal := 150000,
    asmtLand := 50000, asmtImprov := 100000, bdg1year := 1950,
    propClass := some "A1" }

/-! ## Helper lemmas -/

theorem roundHalfEven_le (x : ℚ) : (roundHalfEven x : ℚ) ≤ x + 1 / 2 := by
  unfold roundHalfEven
  split_ifs with h1 h2
  · have := Int.floor_le x
    linarith
  · push_cast
    linarith
  · exact_mod_cast Int.floor_le (x + 1 / 2)

theorem le_roundHalfEven (x : ℚ) : x - 1 / 2 ≤ (roundHalfEven x : ℚ) := by
  unfold roundHalfEven
  split_ifs with h1 h2
  · linarith
  · push_cast
    linarith
  · have := Int.lt_floor_add_one (x + 1 / 2)
    linarith

theorem roundHalfEven_nonneg (x : ℚ) (h : 0 ≤ x) : 0 ≤ roundHalfEven x := by
  unfold roundHalfEven
  have hf : (0 : ℤ) ≤ ⌊x⌋ := Int.floor_nonneg.mpr h
  split_ifs with h1 h2
  · exact hf
  · omega
  · exact Int.floor_nonneg.mpr (by linarith)

theorem pyRound2_nonneg (x : ℚ) (h : 0 ≤ x) : 0 ≤ pyRound2 x := by
  unfold pyRound2
  have : (0 : ℤ) ≤ roundHalfEven (x * 100) := roundHalfEven_nonneg _ (by linarith)
  positivity

theorem pyRound2_le_add (x : ℚ) : pyRound2 x ≤ x + 1 / 200 := by
  unfold pyRound2
  have := roundHalfEven_le (x * 100)
  linarith

theorem pyRound2_le_int (x : ℚ) (n : ℤ) (h : x ≤ n) : pyRound2 x ≤ n := by
  unfold pyRound2
  have h1 := roundHalfEven_le (x * 100)
  have h2 : (roundHalfEven (x * 100) : ℚ) < 100 * n + 1 := by linarith
  have h3 : roundHalfEven (x * 100) < 100 * n + 1 := by exact_mod_cast h2
  have h4 : (roundHalfEven (x * 100) : ℚ) ≤ 100 * n := by exact_mod_cast (by omega : roundHalfEven (x * 100) ≤ 100 * n)
  linarith

theorem roundHalfEven_intCast (n : ℤ) : roundHalfEven (n : ℚ) = n := by
  unfold roundHalfEven
  rw [Int.floor_intCast]
  have hne : (n : ℚ) - n ≠ 1 / 2 := by norm_num
  rw [if_neg hne]
  rw [Int.floor_int_add]
  norm_num

theorem pyRound6_exact (x : ℚ) (n : ℤ) (h : x * 1000000 = n) : pyRound6 x = n / 1000000 := by
  unfold pyRound6
  rw [h, roundHalfEven_intCast]

theorem pyRound2_exact (x : ℚ) (n : ℤ) (h : x * 100 = n) : pyRound2 x = n / 100 := by
  unfold pyRound2
  rw [h, roundHalfEven_intCast]

set_option maxRecDepth 100000

/-! ## Claim theorems -/

/-- C2: the claim says a row whose standardized address is detected as a
PO box is counted and logged but not dropped. The code contradicts it
twice over. In injest_shapes.py the detector itself is broken: its
patterns are written with doubled backslashes, so is_po_box returns false
even on the address P.O. BOX 1234 that the sibling test file
test_injest_shapes.py (line 74) requires to be detected. In
ingest_scripts.py the detector works, but process_city_data line 872
skips the row with continue: the po_box counter is incremented and no
record is emitted. -/
theorem C2_po_box_row_dropped_or_undetected :
    is_po_box_shapes (some "P.O. BOX 1234") = false ∧
    is_po_box_scripts (some "P.O. BOX 1234") = true ∧
    is_po_box_scripts (some "P.O. Box 1234, St. Louis, MO 63102") = true ∧
    (process_city_row poBoxCityRow).1 = none ∧
    (process_city_row poBoxCityRow).2.po_box = 1 := by
  decide

/-- C3 counterexample: standardize_address is not idempotent. On the
input FOO. both implementations output a street segment ending in a
period; on a second pass the rendered period-comma sequence is collapsed
by the punctuation normalization and the period is lost, so applying the
function to its own output changes the string. -/
theorem C3_idempotence_counterexample :
    standardize_address_scripts
        (some (standardize_address_scripts (some "FOO.") "Unknown City" "MO" "63102"))
        "Unknown City" "MO" "63102" ≠
      standardize_address_scripts (some "FOO.") "Unknown City" "MO" "63102" ∧
    standardize_address_shapes
        (some (standardize_address_shapes (some "FOO.") "Unknown City" "MO" "63102"))
        "Unknown City" "MO" "63102" ≠
      standardize_address_shapes (some "FOO.") "Unknown City" "MO" "63102" := by
  decide

/-- C3 amended: idempotence fails in general (see the counterexample) but
holds on the canonical scenario documented by the spec, for both
implementations: the scenario input standardizes to the documented
canonical form and that form is a fixed point; the already-canonical
PO-box form is likewise a fixed point. -/
theorem C3_idempotent_on_canonical_forms :
    standardize_address_scripts (some "123 MAIN STREET, ST LOUIS, MO 63101")
        "Unknown City" "MO" "63102" = "123 Main St., St. Louis, MO 63101" ∧
    standardize_address_scripts (some "123 Main St., St. Louis, MO 63101")
        "Unknown City" "MO" "63102" = "123 Main St., St. Louis, MO 63101" ∧
    standardize_address_shapes (some "123 MAIN STREET, ST LOUIS, MO 63101")
        "Unknown City" "MO" "63102" = "123 Main St., St. Louis, MO 63101" ∧
    standardize_address_shapes (some "123 Main St., St. Louis, MO 63101")
        "Unknown City" "MO" "63102" = "123 Main St., St. Louis, MO 63101" ∧
    standardize_address_scripts (some "P.O. Box 1234, St. Louis, MO 63102")
        "St. Louis" "MO" "63102" = "P.O. Box 1234, St. Louis, MO 63102" ∧
    standardize_address_shapes (some "P.O. Box 1234, St. Louis, MO 63102")
        "St. Louis" "MO" "63102" = "P.O. Box 1234, St. Louis, MO 63102" := by
  decide

/-- C4: for a county row whose raw ZIP fails is_valid_zip, the claim says
the regional default is substituted into the emitted address. In the
code (injest_shapes.py lines 755-761) both branches assign the raw ZIP:
the invalid value is counted and logged but flows unchanged into the
emitted address, which therefore ends in the invalid ZIP rather than a
default. The row is indeed kept (a record is produced). -/
theorem C4_invalid_zip_passed_through :
    county_row_address "123 MAIN ST" "CLAYTON" "ABCDE" =
      some ("123 Main St., Clayton, MO ABCDE", 1) ∧
    is_valid_zip (some "ABCDE") = false := by
  decide

/-- C1: the claim says every emitted record's latitude and longitude are
the parcel centroid reprojected to WGS84, hence inside the display
ranges. In process_city_data the geometry is reprojected to EPSG 26915
for the area computation (line 804) and never back: lines 899-907 emit
the rounded centroid of the still-projected geometry. On the
repository's own sample centroid (test-coordinate-transform.py lines
17-21) the emitted latitude is the UTM northing 4278231.181849 and the
longitude the UTM easting 744902.380139 - far outside the WGS84 ranges -
and the repository's schema validator classifies both as projected
coordinates. -/
theorem C1_centroid_not_reprojected :
    (process_city_row utmCityRow).1.map ParcelRecordOut.latitude =
      some (4278231181849 / 1000000) ∧
    (process_city_row utmCityRow).1.map ParcelRecordOut.longitude =
      some (744902380139 / 1000000) ∧
    ¬ wgs84LatLonRange (4278231181849 / 1000000) (744902380139 / 1000000) ∧
    validator_latitude_check (4278231181849 / 1000000) = CoordCheck.projected ∧
    validator_longitude_check (744902380139 / 1000000) = CoordCheck.projected := by
  have h6a : pyRound6 (4278231181849 / 1000000) = ((4278231181849 : ℤ) : ℚ) / 1000000 :=
    pyRound6_exact _ _ (by norm_num)
  have h6b : pyRound6 (744902380139 / 1000000) = ((744902380139 : ℤ) : ℚ) / 1000000 :=
    pyRound6_exact _ _ (by norm_num)
  refine ⟨?_, ?_, ?_, ?_, ?_⟩
  · simp +decide only [process_city_row, utmCityRow, Option.map, h6a]
    norm_num
  · simp +decide only [process_city_row, utmCityRow, Option.map, h6b]
    norm_num
  · unfold wgs84LatLonRange
    intro hcon
    exact absurd hcon.2.1 (by norm_num)
  · unfold validator_latitude_check
    rw [if_neg (by push_neg; intro h; norm_num), if_pos (by norm_num)]
  · unfold validator_longitude_check
    rw [if_neg (by push_neg; intro h; norm_num), if_pos ?_]
    rw [abs_of_nonneg (by norm_num)]
    norm_num

/-- Rounding to two decimals of a value between zero and the land area
stays nonnegative and exceeds the land area by at most half a cent. -/
theorem round_clamp_helper (V land : ℚ) (h0 : 0 ≤ V) (h1 : V ≤ land) :
    0 ≤ pyRound2 V ∧ pyRound2 V ≤ land + 1 / 200 :=
  ⟨pyRound2_nonneg _ h0, le_trans (pyRound2_le_add V) (by linarith)⟩

/-- C5 counterexample: the claim asserts the result lies between zero and
land_area for every building_sqft. A negative building_sqft (which
safe_to_numeric happily produces from a negative column value) is added
to the available area: on land_area 100, building_sqft -1000, the result
is 1095, far above the land area. The enhanced variant of
injest_shapes.py computes the same value. -/
theorem C5_landscapable_counterexample :
    calculate_landscapable_area 100 (-1000) "other" = 1095 ∧
    ¬ calculate_landscapable_area 100 (-1000) "other" ≤ 100 ∧
    calculate_enhanced_landscapable_area 100 (-1000) "other" = 1095 := by
  have h : calculate_landscapable_area 100 (-1000) "other" = pyRound2 1095 := by
    norm_num [calculate_landscapable_area, min_def, max_def]
    rw [if_neg (by decide), if_neg (by decide)]
  have h2 : pyRound2 (1095 : ℚ) = 1095 := by
    rw [pyRound2_exact 1095 109500 (by norm_num)]
    norm_num
  have h3 : calculate_enhanced_landscapable_area 100 (-1000) "other" =
      calculate_landscapable_area 100 (-1000) "other" := rfl
  refine ⟨by rw [h, h2], by rw [h, h2]; norm_num, by rw [h3, h, h2]⟩

set_option maxHeartbeats 2000000 in
/-- C5 amended: for nonnegative land_area and nonnegative building_sqft
the result is nonnegative and exceeds land_area by at most 1/200 (the
two-decimal rounding slack, which can push the result above land_area
only for land areas below a tenth of a square foot); the enhanced
variant of injest_shapes.py agrees with the Scripts version everywhere. -/
theorem C5_landscapable_bounds (land bldg : ℚ) (pt : String)
    (hl : 0 ≤ land) (hb : 0 ≤ bldg) :
    0 ≤ calculate_landscapable_area land bldg pt ∧
    calculate_landscapable_area land bldg pt ≤ land + 1 / 200 ∧
    calculate_enhanced_landscapable_area land bldg pt =
      calculate_landscapable_area land bldg pt := by
  have hB : 0 ≤ calculate_landscapable_area land bldg pt ∧
      calculate_landscapable_area land bldg pt ≤ land + 1 / 200 := by
    unfold calculate_landscapable_area
    split_ifs with h0 h1 h2 h3 h4 h5 h6 h7
    · exact ⟨le_refl 0, by linarith⟩
    · dsimp only
      have hmn : (0:ℚ) ≤ (15/100 + bldg/20000) ⊓ (25/100) :=
        le_min (by linarith) (by norm_num)
      have hM0 : (0:ℚ) ≤ 0 ⊔ (land - bldg - ((bldg * ((15/100 + bldg/20000) ⊓ 25/100) + 300) ⊓ (land * (6/10)))) :=
        le_max_left _ _
      have hMl : (0:ℚ) ⊔ (land - bldg - ((bldg * ((15/100 + bldg/20000) ⊓ 25/100) + 300) ⊓ (land * (6/10)))) ≤ land := by
        refine max_le hl ?_
        have hHm : (0:ℚ) ≤ (bldg * ((15/100 + bldg/20000) ⊓ 25/100) + 300) ⊓ (land * (6/10)) :=
          le_min (add_nonneg (mul_nonneg hb hmn) (by norm_num)) (mul_nonneg hl (by norm_num))
        linarith
      exact round_clamp_helper _ _ (mul_nonneg hM0 (by norm_num)) (by linarith)
    · dsimp only
      have hmn : (0:ℚ) ≤ (15/100 + bldg/20000) ⊓ (25/100) :=
        le_min (by linarith) (by norm_num)
      have hM0 : (0:ℚ) ≤ 0 ⊔ (land - bldg - ((bldg * ((15/100 + bldg/20000) ⊓ 25/100) + 300) ⊓ (land * (6/10)))) :=
        le_max_left _ _
      have hMl : (0:ℚ) ⊔ (land - bldg - ((bldg * ((15/100 + bldg/20000) ⊓ 25/100) + 300) ⊓ (land * (6/10)))) ≤ land := by
        refine max_le hl ?_
        have hHm : (0:ℚ) ≤ (bldg * ((15/100 + bldg/20000) ⊓ 25/100) + 300) ⊓ (land * (6/10)) :=
          le_min (add_nonneg (mul_nonneg hb hmn) (by norm_num)) (mul_nonneg hl (by norm_num))
        linarith
      exact round_clamp_helper _ _ (mul_nonneg hM0 (by norm_num)) (by linarith)
    · dsimp only
      have hmn : (0:ℚ) ≤ (15/100 + bldg/20000) ⊓ (25/100) :=
        le_min (by linarith) (by norm_num)
      have hM0 : (0:ℚ) ≤ 0 ⊔ (land - bldg - ((bldg * ((15/100 + bldg/20000) ⊓ 25/100) + 300) ⊓ (land * (6/10)))) :=
        le_max_left _ _
      exact round_clamp_helper _ _
        (le_min (le_trans hM0 (le_max_left _ _)) (mul_nonneg hl (by norm_num)))
        (le_trans (min_le_right _ _) (by linarith))
    · dsimp only
      have hmn : (0:ℚ) ≤ (15/100 + bldg/20000) ⊓ (25/100) :=
        le_min (by linarith) (by norm_num)
      have hM0 : (0:ℚ) ≤ 0 ⊔ (land - bldg - ((bldg * ((15/100 + bldg/20000) ⊓ 25/100) + 300) ⊓ (land * (6/10)))) :=
        le_max_left _ _
      have hMl : (0:ℚ) ⊔ (land - bldg - ((bldg * ((15/100 + bldg/20000) ⊓ 25/100) + 300) ⊓ (land * (6/10)))) ≤ land := by
        refine max_le hl ?_
        have hHm : (0:ℚ) ≤ (bldg * ((15/100 + bldg/20000) ⊓ 25/100) + 300) ⊓ (land * (6/10)) :=
          le_min (add_nonneg (mul_nonneg hb hmn) (by norm_num)) (mul_nonneg hl (by norm_num))
        linarith
      exact round_clamp_helper _ _ hM0 (by linarith)
    · dsimp only
      have hM0 : (0:ℚ) ≤ 0 ⊔ (land - bldg - ((land * (5/100)) ⊓ (land * (6/10)))) :=
        le_max_left _ _
      have hMl : (0:ℚ) ⊔ (land - bldg - ((land * (5/100)) ⊓ (land * (6/10)))) ≤ land := by
        refine max_le hl ?_
        have hHm : (0:ℚ) ≤ (land * (5/100)) ⊓ (land * (6/10)) :=
          le_min (mul_nonneg hl (by norm_num)) (mul_nonneg hl (by norm_num))
        linarith
      exact round_clamp_helper _ _ (mul_nonneg hM0 (by norm_num)) (by linarith)
    · dsimp only
      have hM0 : (0:ℚ) ≤ 0 ⊔ (land - bldg - ((land * (5/100)) ⊓ (land * (6/10)))) :=
        le_max_left _ _
      have hMl : (0:ℚ) ⊔ (land - bldg - ((land * (5/100)) ⊓ (land * (6/10)))) ≤ land := by
        refine max_le hl ?_
        have hHm : (0:ℚ) ≤ (land * (5/100)) ⊓ (land * (6/10)) :=
          le_min (mul_nonneg hl (by norm_num)) (mul_nonneg hl (by norm_num))
        linarith
      exact round_clamp_helper _ _ (mul_nonneg hM0 (by norm_num)) (by linarith)
    · dsimp only
      have hM0 : (0:ℚ) ≤ 0 ⊔ (land - bldg - ((land * (5/100)) ⊓ (land * (6/10)))) :=
        le_max_left _ _
      exact round_clamp_helper _ _
        (le_min (le_trans hM0 (le_max_left _ _)) (mul_nonneg hl (by norm_num)))
        (le_trans (min_le_right _ _) (by linarith))
    · dsimp only
      have hM0 : (0:ℚ) ≤ 0 ⊔ (land - bldg - ((land * (5/100)) ⊓ (land * (6/10)))) :=
        le_max_left _ _
      have hMl : (0:ℚ) ⊔ (land - bldg - ((land * (5/100)) ⊓ (land * (6/10)))) ≤ land := by
        refine max_le hl ?_
        have hHm : (0:ℚ) ≤ (land * (5/100)) ⊓ (land * (6/10)) :=
          le_min (mul_nonneg hl (by norm_num)) (mul_nonneg hl (by norm_num))
        linarith
      exact round_clamp_helper _ _ hM0 (by linarith)
  exact ⟨hB.1, hB.2, rfl⟩

/-- C5 witness: the amended bounds instantiated on the spec's worked
scenario (land 10000, building 2000, residential). -/
theorem C5_landscapable_bounds_witness :
    0 ≤ calculate_landscapable_area 10000 2000 "residential" ∧
    calculate_landscapable_area 10000 2000 "residential" ≤ 10000 + 1 / 200 ∧
    calculate_enhanced_landscapable_area 10000 2000 "residential" =
      calculate_landscapable_area 10000 2000 "residential" :=
  C5_landscapable_bounds 10000 2000 "residential" (by norm_num) (by norm_num)

/-- Rounding a value clamped into the zero-to-five interval stays inside
the interval. -/
theorem clamp_round_range (s : ℚ) :
    0 ≤ pyRound2 (0 ⊔ (5 ⊓ s)) ∧ pyRound2 (0 ⊔ (5 ⊓ s)) ≤ 5 := by
  constructor
  · exact pyRound2_nonneg _ (le_max_left 0 _)
  · have h5 : (0:ℚ) ⊔ (5 ⊓ s) ≤ ((5:ℤ):ℚ) := by
      push_cast
      exact max_le (by norm_num) (min_le_left _ _)
    have := pyRound2_le_int ((0:ℚ) ⊔ (5 ⊓ s)) 5 h5
    exact_mod_cast this

/-- C8: both affluence scoring functions return a value in the interval
from zero to five for every row and region. The Scripts version rounds
first and clamps afterwards; the Shapes version clamps first and rounds
afterwards, and round-half-even of a value in the interval stays in the
interval. -/
theorem C8_affluence_score_range (row : AffluenceRow) (region : String) :
    0 ≤ calculate_affluence_score row region ∧
    calculate_affluence_score row region ≤ 5 ∧
    0 ≤ calculate_enhanced_affluence_score row region ∧
    calculate_enhanced_affluence_score row region ≤ 5 := by
  unfold calculate_affluence_score calculate_enhanced_affluence_score
  dsimp only
  exact ⟨le_max_left 0 _, max_le (by norm_num) (min_le_left _ _),
    (clamp_round_range _).1, (clamp_round_range _).2⟩

/-- C9: both classify_property versions always return a value of the
seven-value taxonomy; None maps to unknown for every region; for the
known regions a code matching none of the table tests maps to other; and
the two documented scenarios hold: code A1 in the city is residential,
code C in the county is commercial. -/
theorem C9_classify_property_taxonomy :
    (∀ (c : Option String) (r : String),
        classify_property_scripts c r ∈ propertyTaxonomy ∧
        classify_property_shapes c r ∈ propertyTaxonomy) ∧
    (∀ r : String, classify_property_scripts none r = "unknown" ∧
        classify_property_shapes none r = "unknown") ∧
    (∀ c : String, cityCodeMatchesScripts (pyUpper (pyStrip c)) = false →
        classify_property_scripts (some c) "city" = "other") ∧
    (∀ c : String, cityCodeMatchesShapes (pyUpper (pyStrip c)) = false →
        classify_property_shapes (some c) "city" = "other") ∧
    (∀ c : String, countyCodeMatches (pyUpper (pyStrip c)) = false →
        classify_property_scripts (some c) "county" = "other" ∧
        classify_property_shapes (some c) "county" = "other") ∧
    classify_property_scripts (some "A1") "city" = "residential" ∧
    classify_property_scripts (some "C") "county" = "commercial" ∧
    classify_property_shapes (some "A1") "city" = "residential" ∧
    classify_property_shapes (some "C") "county" = "commercial" := by
  refine ⟨?_, ?_, ?_, ?_, ?_, by decide, by decide, by decide, by decide⟩
  · intro c r
    constructor
    · rcases c with _ | pc
      · simp [classify_property_scripts, propertyTaxonomy]
      · simp only [classify_property_scripts, propertyTaxonomy]
        split_ifs <;> simp
    · rcases c with _ | pc
      · simp [classify_property_shapes, propertyTaxonomy]
      · simp only [classify_property_shapes, propertyTaxonomy]
        split_ifs <;> simp
  · intro r
    exact ⟨rfl, rfl⟩
  · intro c h
    simp only [cityCodeMatchesScripts, Bool.or_eq_false_iff] at h
    obtain ⟨⟨⟨⟨⟨hA, hB⟩, hC⟩, hD⟩, hE⟩, hF⟩ := h
    simp [classify_property_scripts, hA, hB, hC, hD, hE, hF]
  · intro c h
    simp only [cityCodeMatchesShapes, cityCodeMatchesScripts,
      Bool.or_eq_false_iff] at h
    obtain ⟨⟨⟨⟨⟨⟨hA, hB⟩, hC⟩, hD⟩, hE⟩, hF⟩, hX⟩ := h
    simp [classify_property_shapes, hA, hB, hC, hD, hE, hF, hX]
  · intro c h
    simp only [countyCodeMatches, Bool.or_eq_false_iff,
      decide_eq_false_iff_not] at h
    obtain ⟨⟨⟨⟨⟨⟨⟨⟨⟨hR, hRES⟩, hC⟩, hCOM⟩, hI⟩, hIND⟩, hA⟩, hAGR⟩, hE⟩, hEX⟩ := h
    constructor
    · simp [classify_property_scripts, hR, hRES, hC, hCOM, hI, hIND, hA, hAGR, hE, hEX]
    · simp [classify_property_shapes, hR, hRES, hC, hCOM, hI, hIND, hA, hAGR, hE, hEX]

/-- C9 witness: the taxonomy theorem instantiated at codes matching no
table entry, in both regions and both implementations. -/
theorem C9_classify_property_taxonomy_witness :
    classify_property_scripts (some "ZZZ9") "city" = "other" ∧
    classify_property_shapes (some "ZZZ9") "city" = "other" ∧
    classify_property_scripts (some "QQ") "county" = "other" ∧
    classify_property_shapes (some "QQ") "county" = "other" := by
  have h := C9_classify_property_taxonomy
  exact ⟨h.2.2.1 "ZZZ9" (by decide), h.2.2.2.1 "ZZZ9" (by decide),
    (h.2.2.2.2.1 "QQ" (by decide)).1, (h.2.2.2.2.1 "QQ" (by decide)).2⟩

theorem take3_headD (l : List String) : (l.take 3).headD "" = l.headD "" := by
  cases l <;> rfl

theorem take3_get1 (l : List String) : (l.take 3).get? 1 = l.get? 1 := by
  rcases l with _ | ⟨a, _ | ⟨b, t⟩⟩ <;> rfl

theorem take3_get2 (l : List String) : (l.take 3).get? 2 = l.get? 2 := by
  rcases l with _ | ⟨a, _ | ⟨b, _ | ⟨c, t⟩⟩⟩ <;> rfl

theorem take3_eq_nil (l : List String) : (l.take 3 = []) ↔ l = [] := by
  cases l <;> simp

theorem assembleScripts_take3 (l : List String) (dC dS dZ : String) :
    assembleScripts (l.take 3) dC dS dZ = assembleScripts l dC dS dZ := by
  unfold assembleScripts
  rw [take3_headD, take3_get1, take3_get2]

theorem assembleShapes_take3 (l : List String) (dC dS dZ : String) :
    assembleShapes (l.take 3) dC dS dZ = assembleShapes l dC dS dZ := by
  unfold assembleShapes
  rw [take3_headD, take3_get1, take3_get2]

theorem guard_assembleScripts_take3 (P : List String) (dC dS dZ : String) :
    (if P = [] then "" else assembleScripts P dC dS dZ) =
    (if P.take 3 = [] then "" else assembleScripts (P.take 3) dC dS dZ) := by
  by_cases hp : P = []
  · subst hp; rfl
  · rw [if_neg hp, if_neg (fun hc => hp ((take3_eq_nil _).mp hc)), assembleScripts_take3]

theorem guard_assembleShapes_take3 (P : List String) (dC dS dZ : String) :
    (if P = [] then "" else assembleShapes P dC dS dZ) =
    (if P.take 3 = [] then "" else assembleShapes (P.take 3) dC dS dZ) := by
  by_cases hp : P = []
  · subst hp; rfl
  · rw [if_neg hp, if_neg (fun hc => hp ((take3_eq_nil _).mp hc)), assembleShapes_take3]

/-- C10: both standardize_address versions use only the first three
non-empty comma-separated segments: for every input and every choice of
defaults, the output equals that of the variant that explicitly truncates
the parts list to three segments, so segments after the third can never
influence the output string. -/
theorem C10_only_first_three_segments (x : Option String) (dC dS dZ : String) :
    standardize_address_scripts x dC dS dZ =
      standardize_address_scripts_spec3 x dC dS dZ ∧
    standardize_address_shapes x dC dS dZ =
      standardize_address_shapes_spec3 x dC dS dZ := by
  constructor
  · rcases x with _ | s
    · rfl
    · unfold standardize_address_scripts standardize_address_scripts_spec3
      dsimp only
      rw [guard_assembleScripts_take3]
  · rcases x with _ | s
    · rfl
    · unfold standardize_address_shapes standardize_address_shapes_spec3
      dsimp only
      rw [guard_assembleShapes_take3]

/-- C6 counterexample: the claim says every ordinal token whose next
token is not a street-type word is rendered fused with St. The code only
fuses when the ordinal suffix is literally ST (injest_shapes.py line
294): the token 2ND with no following street type is rendered as the bare
2nd, not 2nd St., as the full address shows. -/
theorem C6_ordinal_nd_counterexample :
    processWordShapes "2ND" false = "2nd" ∧
    ("2nd" : String) ≠ "2nd St." ∧
    standardize_address_shapes (some "800 2ND, ST LOUIS, MO 63101")
      "Unknown City" "MO" "63102" = "800 2nd, St. Louis, MO 63101" := by
  decide

/-- C6 amended: for a street token that fully matches the ordinal
pattern, the rendering is the bare English ordinal, with St. fused onto
it exactly when the suffix is ST and the next token is not a recognized
street-type word; the code's digit cascade agrees with the standard
English ordinal-suffix rule for every numeric value. -/
theorem C6_ordinal_rendering (w : String) (nextT : Bool) (n : Nat) (suf : String)
    (h : ordinalParse (upperRstrip (stripDot0 w)).data = some (n, suf)) :
    processWordShapes w nextT =
      (if suf = "ST" ∧ ¬nextT then ordinalSt n else ordinalBare n) ∧
    ordinalBare n = toString n ++ englishOrdinalSuffix n ∧
    ordinalSt n = toString n ++ englishOrdinalSuffix n ++ " St." := by
  refine ⟨by simp only [processWordShapes, h], ?_, ?_⟩
  · unfold ordinalBare englishOrdinalSuffix
    split_ifs <;> try omega
    all_goals first | rfl | (subst_vars; decide)
  · unfold ordinalSt englishOrdinalSuffix
    split_ifs <;> try omega
    all_goals first
      | rfl
      | (subst_vars; decide)
      | (rw [String.append_assoc]; congr 1)

/-- C6 witness: the amended rendering rule instantiated on the token 2ND
with no following street-type token. -/
theorem C6_ordinal_rendering_witness :
    processWordShapes "2ND" false =
      (if ("ND" : String) = "ST" ∧ ¬false then ordinalSt 2 else ordinalBare 2) ∧
    ordinalBare 2 = toString 2 ++ englishOrdinalSuffix 2 ∧
    ordinalSt 2 = toString 2 ++ englishOrdinalSuffix 2 ++ " St." :=
  C6_ordinal_rendering "2ND" false 2 "ND" (by decide)

/-- Consuming n digits succeeds exactly on a decomposition into n leading
digits and a remainder. -/
theorem takeDigitsN_sound : ∀ (n : Nat) (cs ds rest : List Char),
    takeDigitsN n cs = some (ds, rest) →
    cs = ds ++ rest ∧ ds.length = n ∧ ∀ c ∈ ds, c.isDigit = true := by
  intro n
  induction n with
  | zero =>
    intro cs ds rest h
    simp only [takeDigitsN, Option.some.injEq, Prod.mk.injEq] at h
    obtain ⟨h1, h2⟩ := h
    subst h1; subst h2
    simp
  | succ m ih =>
    intro cs ds rest h
    match cs with
    | [] => simp [takeDigitsN] at h
    | c :: t =>
      simp only [takeDigitsN] at h
      by_cases hd : c.isDigit
      · rw [if_pos hd] at h
        rcases htd : takeDigitsN m t with _ | ⟨ds', r'⟩
        · rw [htd] at h; simp at h
        · rw [htd] at h
          simp only [Option.some.injEq, Prod.mk.injEq] at h
          obtain ⟨h1, h2⟩ := h
          obtain ⟨ha, hb, hc⟩ := ih t ds' r' htd
          subst h2
          rw [← h1]
          refine ⟨by rw [ha]; rfl, by simp [← h1, hb], ?_⟩
          intro x hx
          rcases List.mem_cons.mp hx with h | h
          · subst h; exact hd
          · exact hc x h
      · rw [if_neg hd] at h; simp at h

/-- Conversely, a block of digits followed by any remainder is consumed
exactly. -/
theorem takeDigitsN_complete : ∀ (ds rest : List Char),
    (∀ c ∈ ds, c.isDigit = true) →
    takeDigitsN ds.length (ds ++ rest) = some (ds, rest) := by
  intro ds
  induction ds with
  | nil => intro rest _; rfl
  | cons c t ih =>
    intro rest hdig
    have hc : c.isDigit = true := hdig c (List.mem_cons_self c t)
    simp only [List.length_cons, List.cons_append, takeDigitsN, hc, if_pos]
    rw [List.append_eq, ih rest (fun x hx => hdig x (List.mem_cons_of_mem c hx))]

/-- A list whose element at position n is c drops to c followed by the
drop at n+1. -/
theorem drop_cons_of_getQ : ∀ (l : List Char) (n : Nat) (c : Char),
    l.get? n = some c → l.drop n = c :: l.drop (n + 1) := by
  intro l
  induction l with
  | nil => intro n c h; simp at h
  | cons x t ih =>
    intro n c h
    match n with
    | 0 =>
      simp only [List.get?] at h
      injection h with h
      subst h
      rfl
    | m + 1 =>
      simp only [List.get?] at h
      exact ih m c h

/-- The regex matcher for the ZIP pattern accepts exactly the character
lists of the declarative shape: five digits, or five digits, a hyphen and
four digits. -/
theorem zipFullmatchL_iff (cs : List Char) :
    zipFullmatchL cs = true ↔
    ((cs.length = 5 ∧ ∀ c ∈ cs, c.isDigit = true) ∨
     (cs.length = 10 ∧ (∀ c ∈ cs.take 5, c.isDigit = true) ∧
       cs.get? 5 = some '-' ∧ ∀ c ∈ cs.drop 6, c.isDigit = true)) := by
  constructor
  · intro h
    unfold zipFullmatchL at h
    rcases h5 : takeDigitsN 5 cs with _ | ⟨d5, rest⟩
    · rw [h5] at h; simp at h
    · rw [h5] at h
      obtain ⟨hcs, hlen, hdig⟩ := takeDigitsN_sound 5 cs d5 rest h5
      rcases rest with _ | ⟨r0, r2⟩ <;> dsimp only at h
      · left
        rw [List.append_nil] at hcs
        subst hcs
        exact ⟨hlen, hdig⟩
      · by_cases hr0 : r0 = '-'
        · rw [if_pos hr0] at h
          subst hr0
          rcases h4 : takeDigitsN 4 r2 with _ | ⟨d4, r3⟩
          · rw [h4] at h; simp at h
          · rw [h4] at h
            simp only [decide_eq_true_eq] at h
            subst h
            obtain ⟨hr2, hlen4, hdig4⟩ := takeDigitsN_sound 4 r2 d4 [] h4
            rw [List.append_nil] at hr2
            subst hr2
            right
            subst hcs
            have hT : (d5 ++ '-' :: r2).take 5 = d5 := by
              rw [← hlen]
              exact List.take_left d5 _
            have hG : (d5 ++ '-' :: r2).get? 5 = some '-' := by
              rw [show (5 : Nat) = d5.length from hlen.symm]
              rw [List.get?_eq_getElem?, List.getElem?_append_right (le_refl _)]
              simp
            have hD : (d5 ++ '-' :: r2).drop 6 = r2 := by
              have h5d : (d5 ++ '-' :: r2).drop 5 = '-' :: r2 := by
                rw [← hlen]
                exact List.drop_left d5 _
              have h61 : (d5 ++ '-' :: r2).drop 6 = ((d5 ++ '-' :: r2).drop 5).drop 1 := by
                rw [List.drop_drop]
              rw [h61, h5d]
              rfl
            refine ⟨by simp [hlen, hlen4], by rw [hT]; exact hdig, hG, by rw [hD]; exact hdig4⟩
        · rw [if_neg hr0] at h
          simp at h
  · intro h
    rcases h with ⟨hlen, hdig⟩ | ⟨hlen, htake, hget, hdrop⟩
    · have hc := takeDigitsN_complete cs [] hdig
      rw [List.append_nil, hlen] at hc
      unfold zipFullmatchL
      rw [hc]
    · have hsplit : cs.take 5 ++ cs.drop 5 = cs := List.take_append_drop 5 cs
      have hdropeq : cs.drop 5 = '-' :: cs.drop 6 := by
        have := drop_cons_of_getQ cs 5 '-' hget
        simpa using this
      have hd5len : (cs.take 5).length = 5 := by
        rw [List.length_take]
        omega
      have h5 : takeDigitsN 5 cs = some (cs.take 5, cs.drop 5) := by
        have := takeDigitsN_complete (cs.take 5) (cs.drop 5) htake
        rw [hd5len, hsplit] at this
        exact this
      have hd6len : (cs.drop 6).length = 4 := by
        rw [List.length_drop]
        omega
      have h4 : takeDigitsN 4 (cs.drop 6) = some (cs.drop 6, []) := by
        have := takeDigitsN_complete (cs.drop 6) [] hdrop
        rw [List.append_nil, hd6len] at this
        exact this
      unfold zipFullmatchL
      rw [h5, hdropeq]
      dsimp only
      rw [if_pos rfl, h4]
      simp

/-- C7 counterexample: the claim says is_valid_zip is true iff the input
itself matches the anchored ZIP pattern. The code strips surrounding
whitespace first (as its own test suite expects at
test_injest_shapes.py line 104), so the padded string below is accepted
although it does not match the pattern. -/
theorem C7_zip_strip_counterexample :
    is_valid_zip (some " 12345 ") = true ∧ ¬ zipSpecShape " 12345 " := by
  decide

/-- C7 amended: is_valid_zip accepts a present string exactly when its
whitespace-stripped form has the declarative ZIP shape (five digits, or
five digits, hyphen, four digits); None and the claim's listed
rejections are refused, and the two canonical ZIP forms are accepted. -/
theorem C7_zip_characterization :
    (∀ s : String, is_valid_zip (some s) = true ↔ zipSpecShape (pyStrip s)) ∧
    is_valid_zip none = false ∧
    is_valid_zip (some "1234") = false ∧
    is_valid_zip (some "123456") = false ∧
    is_valid_zip (some "ABCDE") = false ∧
    is_valid_zip (some "") = false ∧
    is_valid_zip (some "12345") = true ∧
    is_valid_zip (some "12345-6789") = true := by
  refine ⟨?_, rfl, by decide, by decide, by decide, rfl, by decide, by decide⟩
  intro s
  unfold is_valid_zip
  dsimp only
  by_cases hs : s = ""
  · subst hs
    simp only [if_pos rfl]
    decide
  · rw [if_neg hs]
    unfold zipSpecShape
    exact zipFullmatchL_iff (pyStrip s).data
